import Mathlib

set_option linter.unusedVariables false

/-!
Verification development for the broll repository (media_gatherer.ts,
media_analyzer.ts, suggestBroll.ts).

The embedding models the incremental media-analysis cache
(`analyzeMediaFiles` in media_analyzer.ts) and the suggestion requester
(`suggestBroll` in suggestBroll.ts).  External effects (the OpenAI calls,
frame extraction, transcript reading) are modelled as oracle parameters:
the code only ever inspects their final result, so the oracle maps the
resolved file path to the outcome of the analysis request.
-/

namespace Broll

/-!
Path model.  POSIX-style path strings.  `basename` and `extname` follow the
semantics of `path.basename` / `path.extname` from the Deno std path
library (Node semantics): the basename is everything after the last
separator, and the extension runs from the last dot of the basename to its
end, except when that dot is the basename's first character (dotfile) or
absent.
-/

/-- Characters of the base name: the longest suffix without a separator. -/
def basenameChars (cs : List Char) : List Char :=
  ((cs.reverse).takeWhile (fun c => c != '/')).reverse

/-- Models `path.basename`. -/
def basename (p : String) : String :=
  String.mk (basenameChars p.data)

/-- Models `path.extname`: the extension of the base name, from its last dot
(inclusive) to the end; empty when the base name has no dot or only a
leading dot. -/
def extname (p : String) : String :=
  let b := basenameChars p.data
  let afterDot := (b.reverse).takeWhile (fun c => c != '.')
  if afterDot.length + 1 < b.length then String.mk ('.' :: afterDot.reverse) else ""

/-- Whether a POSIX path is absolute: it begins with the separator. -/
def isAbsolute (p : String) : Bool :=
  match p.data with
  | [] => false
  | c :: _ => c == '/'

/-- Models `path.resolve` against a working directory `cwd`: absolute paths
are kept, relative paths are joined to `cwd`.  Dot-segment normalisation is
not modelled; no claim involves dot segments. -/
def resolvePath (cwd p : String) : String :=
  if isAbsolute p then p else cwd ++ "/" ++ p

/-- Models JavaScript `String.prototype.toLowerCase` character-wise. -/
def toLowerStr (s : String) : String :=
  String.mk (s.data.map Char.toLower)

/-!
Data model (media_analyzer.ts).  `MediaItem` mirrors the `MediaItem`
interface: the four named fields plus an open-ended index signature
`[key: string]: any`, modelled as an explicit `extra` association list of
opaque fields.
-/

inductive MediaType where
  | image : MediaType
  | video : MediaType
  | other : MediaType
  | unknown : MediaType
deriving DecidableEq, Repr

structure MediaItem where
  filename : String
  media_type : MediaType
  description : String
  relevance : String
  /-- Additional opaque fields carried by the record (the index signature). -/
  extra : List (String × String)
deriving DecidableEq, Repr

/-- The image extension list of `analyzeMediaFiles` (line 305). -/
def imageExtensions : List String :=
  [".jpg", ".jpeg", ".png", ".gif", ".bmp", ".webp"]

/-- The video extension list of `analyzeMediaFiles` (line 307). -/
def videoExtensions : List String :=
  [".mp4", ".mov", ".mkv", ".webm", ".m4v"]

/-- Media-kind classification, lines 302-311 of media_analyzer.ts.  The
source initialises `mediaType` to `"unknown"` and then reassigns it in an
if / else-if / else chain whose final `else` is `"other"`, so the initial
value is always overwritten; the net function is this chain, with the
`fileExt` local inlined. -/
def classify (filePath : String) : MediaType :=
  if imageExtensions.contains (toLowerStr (extname filePath)) then MediaType.image
  else if videoExtensions.contains (toLowerStr (extname filePath)) then MediaType.video
  else MediaType.other

/-!
The external analysis call.  `generateStructuredOutput` in
media_analyzer.ts (lines 214-254) wraps one OpenAI request in a try/catch
and returns the parsed item or `null`.  Every failure path — the
`OPENAI_API_KEY` environment variable being absent (the code throws inside
the try block), a non-ok HTTP status, or an unparseable response body —
ends in the catch and yields `null`.  The outcome of the request itself is
external, so it enters the model as an `AnalysisApi` value produced by an
oracle keyed on the resolved file path; the request payload (prompt,
optional frame, optional transcript) does not influence the function's
result beyond that outcome and is absorbed into the oracle.
-/

inductive AnalysisApi where
  /-- The `OPENAI_API_KEY` credential is absent from the environment: the
  function throws inside its own try block. -/
  | noApiKey : AnalysisApi
  /-- The HTTP response status is not ok: the function throws. -/
  | httpError : Nat → AnalysisApi
  /-- Parsing the response content throws. -/
  | badJson : AnalysisApi
  /-- A parsed item, taken verbatim from the response. -/
  | ok : MediaItem → AnalysisApi
deriving DecidableEq, Repr

/-- Lines 214-254: the try/catch collapses every failure to `null`. -/
def generateStructuredOutput (r : AnalysisApi) : Option MediaItem :=
  match r with
  | AnalysisApi.ok item => some item
  | _ => none

/-- One iteration of the per-file loop of `analyzeMediaFiles`
(lines 297-378): resolve the path, take the base name, classify, issue the
analysis request, and on `null` substitute the deterministic fallback item
(lines 368-376).  The source's `filePath = path.resolve(f)`,
`fileName = path.basename(filePath)` and `mediaType` locals are inlined.
The fallback's `extra` is empty: the object literal has exactly the four
named fields. -/
def analyzeOne (api : String → AnalysisApi) (cwd marketingContext transcriptDir : String)
    (f : String) : MediaItem :=
  match generateStructuredOutput (api (resolvePath cwd f)) with
  | some item => item
  | none =>
      { filename := basename (resolvePath cwd f)
        media_type := classify (resolvePath cwd f)
        description := "No description found"
        relevance := "unknown"
        extra := [] }

/-!
The cache pipeline.
-/

/-- Line 282: `new Set(cachedItems.map(item => item.filename))`. -/
def cachedFilenames (items : List MediaItem) : Finset String :=
  (items.map (fun it => it.filename)).toFinset

/-- Lines 289-292: `mediaFiles.filter(f => !cachedFilenames.has(path.basename(f)))`.
Note the filter tests the raw path's base name (the resolution to an
absolute path happens later, inside the loop). -/
def unseenFiles (mediaFiles : List String) (cachedItems : List MediaItem) : List String :=
  mediaFiles.filter (fun f => !(decide (basename f ∈ cachedFilenames cachedItems)))

/-- The spec's description of `unseen` (§4.1, §8), stated in its own words:
the subset of discovered paths whose base filename is not among the cached
items' `filename` fields, in input order. -/
def unseenSpec (paths : List String) (cachedItems : List MediaItem) : List String :=
  paths.filter (fun p => decide (¬ basename p ∈ cachedItems.map (fun c => c.filename)))

/-- Line 382: `const allItems = [...cachedItems, ...newItems]`. -/
def mergeItems (cachedItems newItems : List MediaItem) : List MediaItem :=
  cachedItems ++ newItems

/-- Number of items in `items` carrying the filename `name`. -/
def countFilename (items : List MediaItem) (name : String) : Nat :=
  (items.filter (fun it => it.filename == name)).length

/-- Observable outcome of one `analyzeMediaFiles` run after a successful
cache load: which files were analyzed, the value returned to the caller
(line 394), the sequence handed to `Deno.writeTextFile` (line 386, reached
unconditionally), and what actually landed on disk (`none` when the write
threw and was swallowed by the catch of lines 390-392). -/
structure RunResult where
  analyzedFiles : List String
  result : List MediaItem
  attemptedWrite : List MediaItem
  persisted : Option (List MediaItem)
deriving DecidableEq, Repr

/-- The body of `analyzeMediaFiles` (lines 289-394) after a cache load that
produced the item list `cachedItems`: filter to unseen files, analyze each
in order, append the new items to the cached ones, attempt the write, and
return the combined list.  `persistOk` is the oracle for whether the cache
write succeeds; its failure is caught and ignored. -/
def analyzeMediaFilesRun (api : String → AnalysisApi)
    (cwd marketingContext transcriptDir : String) (persistOk : Bool)
    (mediaFiles : List String) (cachedItems : List MediaItem) : RunResult :=
  let newFiles := unseenFiles mediaFiles cachedItems
  let newItems := newFiles.map (analyzeOne api cwd marketingContext transcriptDir)
  let allItems := mergeItems cachedItems newItems
  { analyzedFiles := newFiles
    result := allItems
    attemptedWrite := allItems
    persisted := if persistOk then some allItems else none }

/-!
The cache file and the full run (lines 264-394).

The try/catch of lines 277-287 reads and parses the cache file.  The
`cachedData as MediaItem[]` cast performs no runtime check, so the parsed
JSON value is assigned to `cachedItems` whatever it is; the subsequent
`cachedItems.map(...)` throws when the value has no `map` method, and that
throw is caught by the same catch, which logs `Continue with empty cache`
but leaves `cachedItems` holding the malformed value.  The later spread
`[...cachedItems, ...newItems]` (line 382) sits outside any try: spreading
a non-iterable value throws an uncaught TypeError, while spreading a string
yields its characters.  The model keeps exactly these distinctions.
-/

/-- Shape of a successfully parsed cache-file JSON value. -/
inductive ParsedCache where
  /-- A JSON array of item-shaped records: the intended cache format. -/
  | arr : List MediaItem → ParsedCache
  /-- A JSON string: it has no `map` method, but it is iterable, so the
  spread at line 382 yields its characters. -/
  | strVal : String → ParsedCache
  /-- Any other JSON value (number, boolean, object, null): no `map` method
  and not iterable, so the spread at line 382 throws. -/
  | nonIterable : ParsedCache
deriving DecidableEq, Repr

/-- State of the cache file at the start of a run. -/
inductive CacheFileState where
  /-- No cache file: `exists(cachePath)` is false. -/
  | absent : CacheFileState
  /-- The file exists but `Deno.readTextFile` throws. -/
  | unreadable : CacheFileState
  /-- The text was read but `JSON.parse` throws. -/
  | invalidJson : CacheFileState
  /-- Parsing succeeded with the given value. -/
  | parsed : ParsedCache → CacheFileState
deriving DecidableEq, Repr

/-- The JavaScript value held by the `cachedItems` binding after the
try/catch of lines 277-287. -/
inductive LoadedCache where
  | items : List MediaItem → LoadedCache
  | jsStr : String → LoadedCache
  | jsNonIterable : LoadedCache
deriving DecidableEq, Repr

/-- Lines 277-287.  On `absent`, `unreadable` and `invalidJson` the
assignment at line 281 is never reached and `cachedItems` keeps its initial
`[]`; on a parsed non-array the assignment lands and the following `.map`
throw is caught without resetting it. -/
def loadCache : CacheFileState → LoadedCache
  | CacheFileState.absent => LoadedCache.items []
  | CacheFileState.unreadable => LoadedCache.items []
  | CacheFileState.invalidJson => LoadedCache.items []
  | CacheFileState.parsed (ParsedCache.arr l) => LoadedCache.items l
  | CacheFileState.parsed (ParsedCache.strVal s) => LoadedCache.jsStr s
  | CacheFileState.parsed ParsedCache.nonIterable => LoadedCache.jsNonIterable

/-- The `cachedFilenames` set after the try/catch: when the `.map` call
threw, the set keeps its initial empty value. -/
def loadedFilenames : LoadedCache → Finset String
  | LoadedCache.items l => cachedFilenames l
  | LoadedCache.jsStr _ => ∅
  | LoadedCache.jsNonIterable => ∅

/-- An element of the value returned by the full run: a media item, or a
character contributed by spreading a string-valued cache. -/
inductive CacheEntry where
  | item : MediaItem → CacheEntry
  | char : Char → CacheEntry
deriving DecidableEq, Repr

def entryItems (l : List MediaItem) : List CacheEntry :=
  l.map CacheEntry.item

/-- The full `analyzeMediaFiles` (lines 264-394) as observed by its caller:
the promise resolves with the combined list, or rejects (`Except.error`)
with the uncaught TypeError thrown by the spread at line 382 when the
loaded cache value is not iterable.  The unseen filter runs against the
filename set left by the load, and every file that passes it is analyzed
before line 382 executes. -/
def analyzeMediaFiles (api : String → AnalysisApi)
    (cwd marketingContext transcriptDir : String)
    (mediaFiles : List String) (cacheState : CacheFileState) :
    Except String (List CacheEntry) :=
  let loaded := loadCache cacheState
  let names := loadedFilenames loaded
  let newFiles := mediaFiles.filter (fun f => !(decide (basename f ∈ names)))
  let newItems := newFiles.map (analyzeOne api cwd marketingContext transcriptDir)
  match loaded with
  | LoadedCache.items cachedItems => Except.ok (entryItems (mergeItems cachedItems newItems))
  | LoadedCache.jsStr s => Except.ok (s.data.map CacheEntry.char ++ entryItems newItems)
  | LoadedCache.jsNonIterable => Except.error "TypeError: cachedItems is not iterable"

/-!
The suggestion requester (suggestBroll.ts).
-/

structure BrollOverlay where
  broll_filename : String
  timestamp : Int
  duration : Int
deriving DecidableEq, Repr

structure BrollSuggestion where
  filename : String
  suggested_broll : List BrollOverlay
deriving DecidableEq, Repr

/-- The parsed JSON response, as used by `suggestBroll`: the `suggestions`
field may be absent or null (`none`), which the caller's `|| []` absorbs. -/
structure BrollSuggestions where
  suggestions : Option (List BrollSuggestion)
deriving DecidableEq, Repr

/-- Outcome of the one OpenAI request issued by `generateStructuredOutput`
in suggestBroll.ts (lines 30-55). -/
inductive SuggestApi where
  /-- The API call itself throws. -/
  | requestError : SuggestApi
  /-- The response content is null or empty, so `!content` returns the
  default from inside the try. -/
  | emptyContent : SuggestApi
  /-- Parsing the response content throws. -/
  | unparseable : SuggestApi
  /-- The content is a non-empty string that parses to JSON null (for
  example the body is the four characters of the word null): it passes the
  falsiness check at line 46 and `JSON.parse` returns `null` at line 50
  without throwing, so the function returns the JavaScript value `null`
  despite its declared type. -/
  | parsedNull : SuggestApi
  /-- A parsed response object. -/
  | parsed : BrollSuggestions → SuggestApi
deriving DecidableEq, Repr

/-- Lines 30-55 of suggestBroll.ts: empty content returns the default from
inside the try, a throw anywhere in the try returns the default from the
catch, and the parsed JSON value is returned as is — which is the
JavaScript value `null` (`none` here) when the body was a JSON null, since
the `as T` cast performs no runtime check. -/
def generateStructuredOutputBroll (api : SuggestApi) (defaultValue : BrollSuggestions) :
    Option BrollSuggestions :=
  match api with
  | SuggestApi.parsed v => some v
  | SuggestApi.parsedNull => none
  | _ => some defaultValue

/-- Models `suggestBroll` (lines 63-117): one request whose default value
carries an empty suggestion list, then `brollResult.suggestions || []` at
line 116.  That member access sits outside any try, so when the request
produced the JavaScript value `null` it throws a TypeError that rejects the
promise to the caller (`Except.error`).  The analyzed media and marketing
context only shape the prompt, whose effect is absorbed into the
request-outcome oracle `api`. -/
def suggestBroll (analyzedMedia : List MediaItem) (marketingContext : String)
    (api : SuggestApi) : Except String (List BrollSuggestion) :=
  match generateStructuredOutputBroll api { suggestions := some [] } with
  | some brollResult => Except.ok (brollResult.suggestions.getD [])
  | none => Except.error "TypeError: cannot read suggestions of null"

/-!
Concrete oracles and data used by the witnesses.
-/

/-- An analysis oracle for which every request fails for want of the API
credential. -/
def apiFail : String → AnalysisApi := fun _ => AnalysisApi.noApiKey

/-- Per-file well-formedness of the analysis oracle: when the request for
`f` succeeds, the returned item is keyed by `f`'s base name — the interface
contract §3/§4.2 imposes on the external analyzer (the fallback satisfies
it unconditionally). -/
def apiOkNames (api : String → AnalysisApi) (cwd : String) (f : String) : Bool :=
  match api (resolvePath cwd f) with
  | AnalysisApi.ok m => m.filename == basename f
  | _ => true

/-- A cached item carrying an opaque extra field, used by the witnesses. -/
def itemA : MediaItem :=
  { filename := "a.mp4"
    media_type := MediaType.video
    description := "desc"
    relevance := "high"
    extra := [("note", "opaque")] }

/-!
Helper lemmas.
-/

theorem takeWhile_append_cons (p : Char → Bool) (c : Char) (hc : p c = false)
    (l₁ l₂ : List Char) :
    ((l₁ ++ c :: l₂).takeWhile p) = l₁.takeWhile p := by
  induction l₁ with
  | nil => simp [List.takeWhile_cons, hc]
  | cons a l ih =>
      simp only [List.cons_append, List.takeWhile_cons]
      cases h : p a <;> simp [h, ih]

theorem basenameChars_append (cs ds : List Char) :
    basenameChars (cs ++ '/' :: ds) = basenameChars ds := by
  unfold basenameChars
  rw [List.reverse_append, List.reverse_cons, List.append_assoc,
    List.singleton_append, takeWhile_append_cons _ '/' rfl]

theorem data_resolvePath (cwd p : String) (h : ¬ isAbsolute p = true) :
    (resolvePath cwd p).data = cwd.data ++ '/' :: p.data := by
  unfold resolvePath
  rw [if_neg h]
  change (cwd ++ "/" ++ p).data = _
  rw [String.data_append, String.data_append,
    show ("/" : String).data = ['/'] from rfl, List.append_assoc]
  rfl

theorem basenameChars_resolvePath (cwd p : String) :
    basenameChars (resolvePath cwd p).data = basenameChars p.data := by
  by_cases h : isAbsolute p = true
  · unfold resolvePath
    rw [if_pos h]
  · rw [data_resolvePath cwd p h, basenameChars_append]

/-- Resolving a path never changes its base name. -/
theorem basename_resolvePath (cwd p : String) :
    basename (resolvePath cwd p) = basename p := by
  unfold basename
  rw [basenameChars_resolvePath]

/-- Resolving a path never changes its extension. -/
theorem extname_resolvePath (cwd p : String) :
    extname (resolvePath cwd p) = extname p := by
  unfold extname
  rw [basenameChars_resolvePath]

/-- Resolving a path never changes its detected media kind. -/
theorem classify_resolvePath (cwd p : String) :
    classify (resolvePath cwd p) = classify p := by
  unfold classify
  rw [extname_resolvePath]

theorem mem_unseenFiles (f : String) (P : List String) (C : List MediaItem) :
    f ∈ unseenFiles P C ↔ f ∈ P ∧ ¬ basename f ∈ cachedFilenames C := by
  unfold unseenFiles
  simp [List.mem_filter]

theorem cachedFilenames_append (a b : List MediaItem) :
    cachedFilenames (a ++ b) = cachedFilenames a ∪ cachedFilenames b := by
  unfold cachedFilenames
  rw [List.map_append, List.toFinset_append]

/-- When the oracle keys every successful response by the file's base name,
the item produced for a file carries its base name — on the fallback path
unconditionally. -/
theorem analyzeOne_filename (api : String → AnalysisApi) (cwd ctx tdir f : String)
    (h : apiOkNames api cwd f = true) :
    (analyzeOne api cwd ctx tdir f).filename = basename f := by
  unfold apiOkNames at h
  unfold analyzeOne
  cases hapi : api (resolvePath cwd f) with
  | noApiKey => simp [generateStructuredOutput, basename_resolvePath]
  | httpError n => simp [generateStructuredOutput, basename_resolvePath]
  | badJson => simp [generateStructuredOutput, basename_resolvePath]
  | ok m =>
      rw [hapi] at h
      have h2 : (m.filename == basename f) = true := h
      simpa [generateStructuredOutput] using eq_of_beq h2

/-!
Claims.
-/

/-- Claim C1: the unseen-file filter returns exactly the subsequence of the
discovered paths whose base filename is not among the cached items'
filename fields, in input order; the comparison is by base filename only.
`unseenSpec` restates the spec's words; the filter is moreover a sublist of
the input, so order and multiplicity come from the input alone. -/
theorem unseen_correct (P : List String) (C : List MediaItem) :
    unseenFiles P C = unseenSpec P C ∧ List.Sublist (unseenFiles P C) P := by
  constructor
  · unfold unseenFiles unseenSpec
    apply List.filter_congr
    intro f _
    rw [decide_not]
    congr 1
    unfold cachedFilenames
    exact decide_eq_decide.mpr List.mem_toFinset
  · exact List.filter_sublist _

/-- Claim C2: the merge step is plain concatenation, cached items first:
the cached sequence is an in-order head of the result, the length is the
sum of the two lengths, and no de-duplication happens — every filename
occurs in the result as often as in the two inputs together, so duplicates
inside the new items are all kept. -/
theorem merge_concat_properties (C N : List MediaItem) :
    (mergeItems C N).take C.length = C ∧
    (mergeItems C N).length = C.length + N.length ∧
    ∀ name : String,
      countFilename (mergeItems C N) name = countFilename C name + countFilename N name := by
  refine ⟨List.take_left _ _, List.length_append _ _, fun name => ?_⟩
  unfold countFilename mergeItems
  rw [List.filter_append, List.length_append]

/-- Claim C3: a second run of the cache-update operation over the same
discovered files, starting from the cache the first run produced, analyzes
no files and returns the first run's sequence unchanged — hence its
filename set is unchanged.  The hypothesis is the interface contract of the
external analyzer (§3, §4.2): a successful analysis of a file is keyed by
that file's base name; the fallback path satisfies it unconditionally. -/
theorem cache_update_idempotent (api : String → AnalysisApi)
    (cwd ctx tdir : String) (persistOk : Bool)
    (mediaFiles : List String) (cachedItems : List MediaItem)
    (H : mediaFiles.all (apiOkNames api cwd) = true) :
    (analyzeMediaFilesRun api cwd ctx tdir persistOk mediaFiles
      (analyzeMediaFilesRun api cwd ctx tdir persistOk mediaFiles cachedItems).result).analyzedFiles
      = [] ∧
    (analyzeMediaFilesRun api cwd ctx tdir persistOk mediaFiles
      (analyzeMediaFilesRun api cwd ctx tdir persistOk mediaFiles cachedItems).result).result
      = (analyzeMediaFilesRun api cwd ctx tdir persistOk mediaFiles cachedItems).result := by
  have hall : ∀ f ∈ mediaFiles, apiOkNames api cwd f = true := List.all_eq_true.mp H
  have hres : (analyzeMediaFilesRun api cwd ctx tdir persistOk mediaFiles cachedItems).result
      = cachedItems ++ (unseenFiles mediaFiles cachedItems).map (analyzeOne api cwd ctx tdir) := rfl
  have key : ∀ f ∈ mediaFiles,
      basename f ∈ cachedFilenames
        (analyzeMediaFilesRun api cwd ctx tdir persistOk mediaFiles cachedItems).result := by
    intro f hf
    rw [hres, cachedFilenames_append, Finset.mem_union]
    by_cases hc : basename f ∈ cachedFilenames cachedItems
    · exact Or.inl hc
    · right
      have hfin : f ∈ unseenFiles mediaFiles cachedItems :=
        (mem_unseenFiles f mediaFiles cachedItems).mpr ⟨hf, hc⟩
      have hmem : analyzeOne api cwd ctx tdir f
          ∈ (unseenFiles mediaFiles cachedItems).map (analyzeOne api cwd ctx tdir) :=
        List.mem_map_of_mem _ hfin
      have hname := analyzeOne_filename api cwd ctx tdir f (hall f hf)
      unfold cachedFilenames
      rw [List.mem_toFinset]
      exact hname ▸ List.mem_map_of_mem MediaItem.filename hmem
  have hnil : unseenFiles mediaFiles
      (analyzeMediaFilesRun api cwd ctx tdir persistOk mediaFiles cachedItems).result = [] := by
    unfold unseenFiles
    apply List.filter_eq_nil_iff.mpr
    intro f hf
    simp [key f hf]
  constructor
  · exact hnil
  · show mergeItems _ ((unseenFiles mediaFiles _).map _) = _
    rw [hnil]
    unfold mergeItems
    rw [List.map_nil, List.append_nil]

/-- Witness for C3: one video file discovered twice in a row, a failing
analyzer (which satisfies the naming contract vacuously), empty initial
cache. -/
theorem cache_update_idempotent_witness :
    (["clip.mp4"].all (apiOkNames apiFail "/work") = true) ∧
    ((analyzeMediaFilesRun apiFail "/work" "ctx" "transcripts" true ["clip.mp4"]
      (analyzeMediaFilesRun apiFail "/work" "ctx" "transcripts" true ["clip.mp4"] []).result).analyzedFiles
      = [] ∧
    (analyzeMediaFilesRun apiFail "/work" "ctx" "transcripts" true ["clip.mp4"]
      (analyzeMediaFilesRun apiFail "/work" "ctx" "transcripts" true ["clip.mp4"] []).result).result
      = (analyzeMediaFilesRun apiFail "/work" "ctx" "transcripts" true ["clip.mp4"] []).result) :=
  ⟨rfl, cache_update_idempotent apiFail "/work" "ctx" "transcripts" true ["clip.mp4"] [] rfl⟩

/-- Claim C4: whenever the external analysis request for a file comes back
as a failure — the `OPENAI_API_KEY` credential being absent included, since
it is thrown inside the same try and so is a request failure rather than a
startup error — the produced item is exactly the deterministic fallback
record for that file's base name and detected kind. -/
theorem fallback_item_deterministic (api : String → AnalysisApi) (cwd ctx tdir f : String) :
    generateStructuredOutput AnalysisApi.noApiKey = none ∧
    (generateStructuredOutput (api (resolvePath cwd f)) = none →
      analyzeOne api cwd ctx tdir f =
        { filename := basename f
          media_type := classify f
          description := "No description found"
          relevance := "unknown"
          extra := [] }) := by
  refine ⟨rfl, fun h => ?_⟩
  unfold analyzeOne
  rw [h]
  simp [basename_resolvePath, classify_resolvePath]

/-- Witness for C4 at a concrete video path with the credential missing. -/
theorem fallback_item_deterministic_witness :
    analyzeOne apiFail "/work" "ctx" "transcripts" "clips/vid.mp4" =
      { filename := "vid.mp4"
        media_type := MediaType.video
        description := "No description found"
        relevance := "unknown"
        extra := [] } := by
  rw [(fallback_item_deterministic apiFail "/work" "ctx" "transcripts" "clips/vid.mp4").2 rfl]
  decide

/-- Claim C5 evaluation: a cache file holding valid JSON that is not an
array (for example a JSON object) is assigned to `cachedItems` before the
`.map` call throws; the catch logs `Continue with empty cache` but never
resets the binding, so the spread at line 382 throws an uncaught TypeError
and the whole run rejects instead of proceeding with an empty cache. -/
theorem malformed_cache_aborts_run :
    analyzeMediaFiles apiFail "/work" "ctx" "transcripts" ["a.mp4"]
        (CacheFileState.parsed ParsedCache.nonIterable) =
      Except.error "TypeError: cachedItems is not iterable" := rfl

/-- Claim C6 evaluation: a response body that parses to JSON null slips
through every guard — it is a non-empty string, so the falsiness check at
line 46 passes, and `JSON.parse` returns `null` from inside the try at
line 50 without throwing — and then the member access
`brollResult.suggestions` at line 116, outside any try, throws a TypeError
that propagates to the caller.  The request-error, empty-content,
unparseable and missing-`suggestions`-field failures do all return the
empty list as the claim states; the parsed-null body is the one failure
that escapes, against the source's own stated default-on-failure intent. -/
theorem suggestBroll_null_response_throws :
    suggestBroll [] "ctx" SuggestApi.parsedNull
      = Except.error "TypeError: cannot read suggestions of null" ∧
    suggestBroll [] "ctx" SuggestApi.requestError = Except.ok [] ∧
    suggestBroll [] "ctx" SuggestApi.emptyContent = Except.ok [] ∧
    suggestBroll [] "ctx" SuggestApi.unparseable = Except.ok [] ∧
    suggestBroll [] "ctx" (SuggestApi.parsed { suggestions := none }) = Except.ok [] :=
  ⟨rfl, rfl, rfl, rfl, rfl⟩

/-- Claim C7: the write of the merged sequence is attempted on every run —
the write call is unconditional, in particular it happens when every
analysis used the fallback path, since the theorem quantifies over every
oracle — and when the write fails (`persistOk = false`) nothing lands on
disk, yet the value returned to the caller is still the full merged
sequence, identical to what a successful run returns. -/
theorem persist_always_attempted (api : String → AnalysisApi)
    (cwd ctx tdir : String) (mediaFiles : List String) (cachedItems : List MediaItem) :
    (analyzeMediaFilesRun api cwd ctx tdir false mediaFiles cachedItems).attemptedWrite
      = mergeItems cachedItems
          ((unseenFiles mediaFiles cachedItems).map (analyzeOne api cwd ctx tdir)) ∧
    (analyzeMediaFilesRun api cwd ctx tdir false mediaFiles cachedItems).persisted = none ∧
    (analyzeMediaFilesRun api cwd ctx tdir false mediaFiles cachedItems).result
      = (analyzeMediaFilesRun api cwd ctx tdir false mediaFiles cachedItems).attemptedWrite ∧
    (analyzeMediaFilesRun api cwd ctx tdir true mediaFiles cachedItems).result
      = (analyzeMediaFilesRun api cwd ctx tdir false mediaFiles cachedItems).result :=
  ⟨rfl, rfl, rfl, rfl⟩

/-- Claim C8: every previously cached item survives the merge and the
attempted persist verbatim: the cached sequence is literally the first
`|cached|` elements of both the returned sequence and the sequence handed
to the write, and item equality here is full structural equality, opaque
`extra` fields included. -/
theorem cached_items_preserved (api : String → AnalysisApi)
    (cwd ctx tdir : String) (persistOk : Bool)
    (mediaFiles : List String) (cachedItems : List MediaItem) :
    ((analyzeMediaFilesRun api cwd ctx tdir persistOk mediaFiles cachedItems).result).take
        cachedItems.length = cachedItems ∧
    ((analyzeMediaFilesRun api cwd ctx tdir persistOk mediaFiles cachedItems).attemptedWrite).take
        cachedItems.length = cachedItems :=
  ⟨List.take_left _ _, List.take_left _ _⟩

/-- Claim C9: when every discovered path's base filename is already among
the cached filenames, the run analyzes nothing, returns the cached items
unchanged, and still hands exactly that sequence to the cache write — the
write is unconditional even when nothing is new. -/
theorem all_cached_run (api : String → AnalysisApi) (cwd ctx tdir : String)
    (mediaFiles : List String) (cachedItems : List MediaItem)
    (H : mediaFiles.all (fun f => decide (basename f ∈ cachedFilenames cachedItems)) = true) :
    (analyzeMediaFilesRun api cwd ctx tdir true mediaFiles cachedItems).analyzedFiles = [] ∧
    (analyzeMediaFilesRun api cwd ctx tdir true mediaFiles cachedItems).result = cachedItems ∧
    (analyzeMediaFilesRun api cwd ctx tdir true mediaFiles cachedItems).attemptedWrite
      = cachedItems ∧
    (analyzeMediaFilesRun api cwd ctx tdir true mediaFiles cachedItems).persisted
      = some cachedItems := by
  have hall := List.all_eq_true.mp H
  have hnil : unseenFiles mediaFiles cachedItems = [] := by
    unfold unseenFiles
    apply List.filter_eq_nil_iff.mpr
    intro f hf
    simp [of_decide_eq_true (hall f hf)]
  refine ⟨hnil, ?_, ?_, ?_⟩ <;>
    simp [analyzeMediaFilesRun, hnil, mergeItems]

/-- Witness for C9: one discovered path in a subdirectory whose base name
is already cached. -/
theorem all_cached_run_witness :
    (["dir/a.mp4"].all
      (fun f => decide (basename f ∈ cachedFilenames [itemA])) = true) ∧
    ((analyzeMediaFilesRun apiFail "/work" "ctx" "transcripts" true ["dir/a.mp4"]
        [itemA]).analyzedFiles = [] ∧
    (analyzeMediaFilesRun apiFail "/work" "ctx" "transcripts" true ["dir/a.mp4"]
        [itemA]).result = [itemA] ∧
    (analyzeMediaFilesRun apiFail "/work" "ctx" "transcripts" true ["dir/a.mp4"]
        [itemA]).attemptedWrite = [itemA] ∧
    (analyzeMediaFilesRun apiFail "/work" "ctx" "transcripts" true ["dir/a.mp4"]
        [itemA]).persisted = some [itemA]) :=
  ⟨by decide, all_cached_run apiFail "/work" "ctx" "transcripts" ["dir/a.mp4"] [itemA] (by decide)⟩

set_option maxHeartbeats 800000 in
/-- Claim C10: classification only ever yields image, video or other; the
`unknown` variant of the `MediaItem` type is never assigned by it, so a
fallback item — whose kind is the classified kind — never carries
`unknown`. -/
theorem classify_never_unknown (p : String) (api : String → AnalysisApi)
    (cwd ctx tdir f : String) :
    (classify p = MediaType.image ∨ classify p = MediaType.video ∨
      classify p = MediaType.other) ∧
    classify p ≠ MediaType.unknown ∧
    (generateStructuredOutput (api (resolvePath cwd f)) = none →
      (analyzeOne api cwd ctx tdir f).media_type ≠ MediaType.unknown) := by
  have hcl : ∀ q : String, classify q = MediaType.image ∨ classify q = MediaType.video ∨
      classify q = MediaType.other := by
    intro q
    unfold classify
    split_ifs
    · exact Or.inl rfl
    · exact Or.inr (Or.inl rfl)
    · exact Or.inr (Or.inr rfl)
  have hne : ∀ q : String, classify q ≠ MediaType.unknown := by
    intro q hq
    rcases hcl q with h | h | h <;> rw [hq] at h <;> cases h
  refine ⟨hcl p, hne p, fun h => ?_⟩
  unfold analyzeOne
  rw [h]
  exact hne (resolvePath cwd f)

/-- Witness for C10 at a file of unrecognised extension analyzed on the
fallback path. -/
theorem classify_never_unknown_witness :
    (analyzeOne apiFail "/work" "ctx" "transcripts" "doc.pdf").media_type
      ≠ MediaType.unknown :=
  (classify_never_unknown "doc.pdf" apiFail "/work" "ctx" "transcripts" "doc.pdf").2.2 rfl

end Broll
